import Mathlib

/-!
Verification of the internet-monitor dashboard (`internet_monitor.py`, `app.py`)
against its natural-language specification.

Shallow embedding conventions:
* Timestamps (`datetime.now()`) are a `Nat` supplied by the environment; the
  snapshot field `last_down` is `Option Nat` where `none` renders as `"Never"`.
* Byte counters are `Nat`; derived arithmetic is over `ℚ` (Python ints/floats
  carry the exact values involved here).
* Python `round(x, 2)` is modelled exactly as round-half-to-even at two
  decimal places over `ℚ`.
* Every external capability (HTTP requests, psutil, netifaces, speedtest) is
  an explicit environment input; a fallible capability is an `Except`/sum
  whose error constructor stands for the Python exception the source handles
  (or fails to handle).
* Logging (`self.logger.…`) is modelled as an explicit list of emitted events.
-/

/-- Python `round` at integer precision: round half to even (bankers rounding). -/
def roundHalfEven (x : ℚ) : ℤ :=
  let n : ℤ := x.floor
  let frac : ℚ := x - (n : ℚ)
  if frac < 1/2 then n
  else if 1/2 < frac then n + 1
  else if n % 2 = 0 then n else n + 1

/-- Python `round(x, 2)`: round half to even at two decimal places. -/
def round2 (x : ℚ) : ℚ := (roundHalfEven (x * 100) : ℚ) / 100

/-- A log record emitted through `self.logger`. -/
inductive LogEvent where
  | warning (msg : String)
  | error (msg : String)
  | critical (msg : String)
  | info (msg : String)
  deriving DecidableEq, Repr

/-- Outcome of `requests.get(url, …)` for one probe URL, as the source
distinguishes them: an HTTP response (any status, with elapsed seconds),
`requests.exceptions.ConnectionError`, `requests.exceptions.Timeout`, or any
other `requests.exceptions.RequestException`. -/
inductive UrlOutcome where
  | response (status : ℕ) (elapsed : ℚ)
  | connError
  | timeout
  | requestException
  deriving DecidableEq, Repr

/-- Recogniser for the `UrlOutcome.response` constructor. -/
def UrlOutcome.isResponse : UrlOutcome → Bool
  | .response _ _ => true
  | _ => false

/-- The dictionary returned by `check_internet_availability`. -/
structure AvailabilityResult where
  available : Bool
  status_code : ℕ
  ping : Option ℚ
  test_url : Option String
  deriving DecidableEq, Repr

/-- The fixed probe list `test_urls` in `check_internet_availability`. -/
def test_urls : List String :=
  ["https://www.google.com", "https://www.cloudflare.com", "https://1.1.1.1"]

/-- The `for url in test_urls` loop body of `check_internet_availability`:
returns `some result` on the first URL that yields an HTTP response (a status
≥ 400 first logs a warning), skips `ConnectionError`/`Timeout` silently, and
logs other `RequestException`s before continuing. -/
def checkLoop : List (String × UrlOutcome) → Option AvailabilityResult × List LogEvent
  | [] => (none, [])
  | (url, o) :: rest =>
    match o with
    | .response s t =>
        (some { available := decide (200 ≤ s ∧ s < 400)
                status_code := s
                ping := some (round2 (t * 1000))
                test_url := some url },
         if 400 ≤ s then [.warning ("HTTP Error " ++ toString s ++ " for " ++ url)] else [])
    | .connError => checkLoop rest
    | .timeout => checkLoop rest
    | .requestException =>
        let r := checkLoop rest
        (r.1, .error "Request exception" :: r.2)

/-- Function `check_internet_availability` (lines 39–80): tries the URLs in order; if
none responded, performs the UP→DOWN transition on `self.last_down_time`
(recording `now` and logging a critical event only when it was `None`) and
returns the all-failed result. Returns (result, new `last_down_time`, log). -/
def check_internet_availability (last_down_time : Option ℕ) (now : ℕ)
    (outcomes : List (String × UrlOutcome)) :
    AvailabilityResult × Option ℕ × List LogEvent :=
  match checkLoop outcomes with
  | (some r, logs) => (r, last_down_time, logs)
  | (none, logs) =>
    match last_down_time with
    | none =>
        ({ available := false, status_code := 0, ping := none, test_url := none },
         some now, logs ++ [.critical "INTERNET DOWN - Initial detection"])
    | some t =>
        ({ available := false, status_code := 0, ping := none, test_url := none },
         some t, logs)

/-- The dictionary returned by `measure_speed`. -/
structure SpeedResult where
  download : Option ℚ
  upload : Option ℚ
  deriving DecidableEq, Repr

/-- Behaviour of the speedtest service during one `measure_speed` call:
both measurements succeed (bit/s values), the upload step raises after the
download was stored, or an earlier step raises. -/
inductive SpeedEnv where
  | ok (downloadBits uploadBits : ℚ)
  | uploadFail (downloadBits : ℚ)
  | fail
  deriving DecidableEq, Repr

/-- Function `measure_speed` (lines 82–94): fills `result` field by field inside one
`try`, so a failure after the download leaves the download value in place;
any failure is logged and both-absent/partial results are returned, never
raised. -/
def measure_speed : SpeedEnv → SpeedResult × List LogEvent
  | .ok d u => ({ download := some (d / 1000000), upload := some (u / 1000000) }, [])
  | .uploadFail d => ({ download := some (d / 1000000), upload := none },
                      [.error "Speedtest failed"])
  | .fail => ({ download := none, upload := none }, [.error "Speedtest failed"])

/-- The dictionary returned by `get_network_info`. -/
structure NetworkInfo where
  hostname : String
  local_ip : String
  mac_address : String
  interface_name : String
  external_ip : String
  provider : String
  deriving DecidableEq, Repr

/-- Address families `netifaces.ifaddresses` reports for one interface:
first `AF_INET` address and first `AF_LINK` address, when present. -/
structure IfaceAddrs where
  inet : Option String
  link : Option String
  deriving DecidableEq, Repr

/-- The interface loop of `get_network_info`: first interface that has an
`AF_INET` address and is not the loopback name `lo`; yields its name, IPv4 address and
optional hardware address. -/
def findActiveIface : List (String × IfaceAddrs) → Option (String × String × Option String)
  | [] => none
  | (name, a) :: rest =>
    match a.inet with
    | some ip => if name ≠ "lo" then some (name, ip, a.link) else findActiveIface rest
    | none => findActiveIface rest

/-- Function `get_network_info` (lines 96–123): hostname always; interface fields from
the first qualifying interface, left `"N/A"` when enumeration fails (logged)
or finds none; external IP / provider merged from the cached fields. -/
def get_network_info (external_ip provider hostname : String)
    (ifaces : Except String (List (String × IfaceAddrs))) :
    NetworkInfo × List LogEvent :=
  let base : NetworkInfo :=
    { hostname := hostname, local_ip := "N/A", mac_address := "N/A",
      interface_name := "N/A", external_ip := external_ip, provider := provider }
  match ifaces with
  | .error e => (base, [.error ("Network info error: " ++ e)])
  | .ok l =>
    match findActiveIface l with
    | none => (base, [])
    | some (name, ip, mac) =>
        ({ base with interface_name := name, local_ip := ip,
                     mac_address := mac.getD "N/A" }, [])

/-- The mutable `self.traffic_stats` baseline: most recent absolute
cumulative byte counters. -/
structure TrafficBaseline where
  sent : ℕ
  recv : ℕ
  deriving DecidableEq, Repr

/-- The dictionary returned by `get_traffic_usage`. -/
structure TrafficReading where
  sent_total_mb : ℚ
  recv_total_mb : ℚ
  sent_rate_kbps : ℚ
  recv_rate_kbps : ℚ
  deriving DecidableEq, Repr

/-- Function `get_traffic_usage` (lines 125–145). The `psutil.net_io_counters()` read
is NOT wrapped in any `try`: when it raises, the exception propagates and the
baseline is not updated (modelled by `Except.error`). On success the deltas
against the baseline give rates over a fixed nominal 10-second interval, the
baseline is overwritten with the absolute counters just read, and totals are
the absolute counters in MiB. -/
def get_traffic_usage (baseline : TrafficBaseline)
    (netCounters : Except String (ℕ × ℕ)) :
    Except String (TrafficReading × TrafficBaseline) :=
  match netCounters with
  | .error e => .error e
  | .ok (current_sent, current_recv) =>
      let sent_diff : ℤ := (current_sent : ℤ) - (baseline.sent : ℤ)
      let recv_diff : ℤ := (current_recv : ℤ) - (baseline.recv : ℤ)
      .ok ({ sent_total_mb := round2 ((current_sent : ℚ) / 1048576)
             recv_total_mb := round2 ((current_recv : ℚ) / 1048576)
             sent_rate_kbps := round2 ((sent_diff : ℚ) * 8 / 1024 / 10)
             recv_rate_kbps := round2 ((recv_diff : ℚ) * 8 / 1024 / 10) },
           { sent := current_sent, recv := current_recv })

/-- One entry of `psutil.net_connections` with the inet kind: status string, owning
pid as Python reports it (`None` or `0` are falsy), local address, optional
remote address. -/
structure Conn where
  status : String
  pid : Option ℕ
  laddr : String × ℕ
  raddr : Option (String × ℕ)
  deriving DecidableEq, Repr

/-- Outcome of `psutil.Process(pid)` + `p.name()` for one pid: a name, or one
of the two exception classes the loop catches and skips. -/
inductive ProcLookup where
  | ok (name : String)
  | noSuchProcess
  | accessDenied
  deriving DecidableEq, Repr

/-- One entry of the list built by `get_network_processes`. -/
structure ProcEntry where
  pid : ℕ
  name : String
  local_address : String
  remote_address : String
  status : String
  deriving DecidableEq, Repr

/-- Format `"ip:port"` as the f-strings of the source do. -/
def fmtAddr (a : String × ℕ) : String := a.1 ++ ":" ++ toString a.2

/-- The per-connection body of the `get_network_processes` loop: appends an
entry iff the connection is ESTABLISHED with a truthy pid and the process
lookup does not raise `NoSuchProcess`/`AccessDenied`. -/
def entryOf (lookup : ℕ → ProcLookup) (c : Conn) : Option ProcEntry :=
  match c.pid with
  | none => none
  | some p =>
    if c.status = "ESTABLISHED" ∧ p ≠ 0 then
      match lookup p with
      | .ok name =>
          some { pid := p, name := name,
                 local_address := fmtAddr c.laddr,
                 remote_address := (c.raddr.map fmtAddr).getD "N/A",
                 status := c.status }
      | .noSuchProcess => none
      | .accessDenied => none
    else none

/-- Function `get_network_processes` (lines 147–169): on enumeration failure the error
is logged and the (still empty) list is returned; otherwise the qualifying
entries in enumeration order, truncated to 20 by `processes[:20]`. -/
def get_network_processes (conns : Except String (List Conn))
    (lookup : ℕ → ProcLookup) : List ProcEntry × List LogEvent :=
  match conns with
  | .error e => ([], [.error ("Process scan error: " ++ e)])
  | .ok l => ((l.filterMap (entryOf lookup)).take 20, [])

/-- The mutable fields of `InternetMonitor` that `get_all_stats` touches. -/
structure MonitorState where
  last_down_time : Option ℕ
  traffic : TrafficBaseline
  external_ip : String
  provider : String
  deriving DecidableEq, Repr

/-- One tick of external-world behaviour consumed by
`get_all_stats`: `now` for every `datetime.now()` in the tick, the probe
outcomes for the three `test_urls`, the speedtest behaviour together with
whether the 8-second `join` saw the thread finish, and the host capabilities
(hostname, interface enumeration, byte counters, connection enumeration,
process-name lookup). -/
structure Env where
  now : ℕ
  outcomes : List UrlOutcome
  speed : SpeedEnv
  speedThreadFinished : Bool
  hostname : String
  ifaces : Except String (List (String × IfaceAddrs))
  netCounters : Except String (ℕ × ℕ)
  conns : Except String (List Conn)
  procName : ℕ → ProcLookup

/-- The snapshot dictionary assembled by `get_all_stats`; `last_down = none`
renders as the string `"Never"`. -/
structure Stats where
  timestamp : ℕ
  availability : AvailabilityResult
  speed : SpeedResult
  network_info : NetworkInfo
  traffic : TrafficReading
  processes : List ProcEntry
  last_down : Option ℕ
  deriving DecidableEq, Repr

/-- Function `get_all_stats` (lines 187–220), in source statement order:
1. `check_internet_availability` (may perform the UP→DOWN transition);
2. speedtest thread when available (its result is taken only if the thread
   finished within the 8-second join, otherwise the defaults remain);
3. the `stats` dict literal, whose values evaluate left to right —
   `network_info` first, then `get_traffic_usage` (whose uncaught
   `net_io_counters` failure propagates out of `get_all_stats`, aborting
   before `processes` runs), then `processes`, then `last_down` read from
   `self.last_down_time` as it stands after step 1;
4. only after the dict is built, the DOWN→UP recovery branch logs the
   restoration and clears `last_down_time`.
Returns (snapshot or propagated exception, final state, emitted log). -/
def get_all_stats (st : MonitorState) (env : Env) :
    Except String Stats × MonitorState × List LogEvent :=
  let c := check_internet_availability st.last_down_time env.now
             (test_urls.zip env.outcomes)
  let availability := c.1
  let ldt := c.2.1
  let checkLog := c.2.2
  let sp : SpeedResult × List LogEvent :=
    if availability.available ∧ env.speedThreadFinished then measure_speed env.speed
    else ({ download := none, upload := none }, [])
  let ni := get_network_info st.external_ip st.provider env.hostname env.ifaces
  match get_traffic_usage st.traffic env.netCounters with
  | .error e =>
      (.error e, { st with last_down_time := ldt },
       checkLog ++ sp.2 ++ ni.2)
  | .ok (traffic, baseline2) =>
      let pr := get_network_processes env.conns env.procName
      let stats : Stats :=
        { timestamp := env.now
          availability := availability
          speed := sp.1
          network_info := ni.1
          traffic := traffic
          processes := pr.1
          last_down := ldt }
      match availability.available, ldt with
      | true, some t =>
          (.ok stats,
           { st with last_down_time := none, traffic := baseline2 },
           checkLog ++ sp.2 ++ ni.2 ++ pr.2 ++
             [.info ("INTERNET RESTORED after " ++ toString (env.now - t))])
      | _, _ =>
          (.ok stats,
           { st with last_down_time := ldt, traffic := baseline2 },
           checkLog ++ sp.2 ++ ni.2 ++ pr.2)

/-- Module-level `app.py` cache shared between the background refresher and
request handlers: `cached_stats` (initially the empty dict, modelled `none`)
and `cache_time`. -/
structure AppGlobals where
  cached_stats : Option Stats
  cache_time : ℚ
  deriving DecidableEq, Repr

/-- Constant `CACHE_TTL = 5` in `app.py`. -/
def CACHE_TTL : ℚ := 5

/-- What the `/api/stats` handler produces for one request: a JSON body, or
the 500 the framework emits when the handler raises (here:
`UnboundLocalError`). -/
inductive HttpResponse where
  | json (body : Option Stats)
  | serverError
  deriving DecidableEq, Repr

/-- One iteration of the `update_cache` background loop body (lines 17–21):
under the lock, stores a fresh snapshot into the module-level `cached_stats`
and stamps `cache_time`. -/
def update_cache_step (now : ℚ) (fresh : Stats) : AppGlobals :=
  { cached_stats := some fresh, cache_time := now }

/-- Handler `get_stats` (`GET /api/stats`, lines 31–37). Python scoping: the body
assigns `cached_stats` without a `global` declaration, so `cached_stats` is a
function-local name throughout the body; the module-level binding is never
read or written here. The local starts unassigned, is bound to the freshly
computed stats only in the stale branch, and `jsonify(cached_stats)` then
reads the local — raising `UnboundLocalError` (surfaced as a 500) when the
stale branch did not run. `fresh` is the value `monitor.get_all_stats()`
would return for this request. Returns (response, module globals after the
call). -/
def get_stats (g : AppGlobals) (now : ℚ) (fresh : Stats) :
    HttpResponse × AppGlobals :=
  let localCached : Option Stats := none
  let localCached : Option Stats :=
    if now - g.cache_time > CACHE_TTL then some fresh else localCached
  match localCached with
  | some s => (.json (some s), g)
  | none => (.serverError, g)

/-- Concrete monitor state: currently DOWN since tick 5, zero traffic
baseline. Used as the concrete input of several witnesses. -/
def exSt : MonitorState :=
  { last_down_time := some 5, traffic := { sent := 0, recv := 0 },
    external_ip := "203.0.113.7", provider := "ExampleNet" }

/-- Concrete environment for a recovery tick: the first probe URL answers
200, the host capabilities all succeed (trivially). -/
def exEnvRecovery : Env :=
  { now := 100
    outcomes := [.response 200 (3/100), .connError, .connError]
    speed := .fail
    speedThreadFinished := false
    hostname := "host"
    ifaces := .ok []
    netCounters := .ok (0, 0)
    conns := .ok []
    procName := fun _ => .noSuchProcess }

/-- Environment `exEnvRecovery` with the cumulative byte-counter read raising. -/
def exEnvTrafficFail : Env := { exEnvRecovery with netCounters := .error "boom" }

/-- A concrete snapshot value, used where a witness needs some `Stats`. -/
def exStats : Stats :=
  { timestamp := 0
    availability := { available := true, status_code := 200, ping := some 30, test_url := some "https://www.google.com" }
    speed := { download := none, upload := none }
    network_info := { hostname := "host", local_ip := "N/A", mac_address := "N/A",
                      interface_name := "N/A", external_ip := "203.0.113.7", provider := "ExampleNet" }
    traffic := { sent_total_mb := 0, recv_total_mb := 0, sent_rate_kbps := 0, recv_rate_kbps := 0 }
    processes := []
    last_down := none }

/-- If no probe URL produced an HTTP response, the URL loop yields no result. -/
theorem checkLoop_fst_none (outs : List (String × UrlOutcome))
    (h : ∀ p ∈ outs, p.2.isResponse = false) : (checkLoop outs).1 = none := by
  induction outs with
  | nil => rfl
  | cons p rest ih =>
    obtain ⟨url, o⟩ := p
    have ho := h _ (List.mem_cons_self _ _)
    cases o with
    | response s t => simp [UrlOutcome.isResponse] at ho
    | connError => exact ih fun q hq => h q (List.mem_cons_of_mem _ hq)
    | timeout => exact ih fun q hq => h q (List.mem_cons_of_mem _ hq)
    | requestException =>
      simpa [checkLoop] using ih fun q hq => h q (List.mem_cons_of_mem _ hq)

/-- The URL loop stops at the first HTTP response: its result is built from
that response, and a status ≥ 400 leaves a warning in the emitted log. -/
theorem checkLoop_first_response (pre rest : List (String × UrlOutcome))
    (url : String) (s : ℕ) (t : ℚ)
    (h : ∀ p ∈ pre, p.2.isResponse = false) :
    (checkLoop (pre ++ (url, .response s t) :: rest)).1 =
      some { available := decide (200 ≤ s ∧ s < 400), status_code := s,
             ping := some (round2 (t * 1000)), test_url := some url }
    ∧ (400 ≤ s →
        LogEvent.warning ("HTTP Error " ++ toString s ++ " for " ++ url) ∈
          (checkLoop (pre ++ (url, .response s t) :: rest)).2) := by
  induction pre with
  | nil =>
    refine ⟨rfl, fun hs => ?_⟩
    simp [checkLoop, if_pos hs]
  | cons p pre ih =>
    obtain ⟨u, o⟩ := p
    have ho := h _ (List.mem_cons_self _ _)
    have h2 : ∀ q ∈ pre, q.2.isResponse = false := fun q hq => h q (List.mem_cons_of_mem _ hq)
    cases o with
    | response s2 t2 => simp [UrlOutcome.isResponse] at ho
    | connError => exact ih h2
    | timeout => exact ih h2
    | requestException =>
      refine ⟨(ih h2).1, fun hs => ?_⟩
      simp only [checkLoop, List.cons_append]
      exact List.mem_cons_of_mem _ ((ih h2).2 hs)

/-- C5: for every failure of the connection-enumeration capability,
`get_network_processes` returns the empty sequence and logs the error,
rather than propagating the failure or returning a partial sequence. -/
theorem C5_enum_failure_empty (e : String) (lookup : ℕ → ProcLookup) :
    get_network_processes (.error e) lookup =
      ([], [.error ("Process scan error: " ++ e)]) := rfl

/-- C8: for every successfully enumerated connection list, of any length,
`get_network_processes` returns at most 20 entries, namely the first 20
qualifying entries in enumeration order. -/
theorem C8_truncates_to_20 (conns : List Conn) (lookup : ℕ → ProcLookup) :
    (get_network_processes (.ok conns) lookup).1.length ≤ 20
    ∧ (get_network_processes (.ok conns) lookup).1 =
        (conns.filterMap (entryOf lookup)).take 20 :=
  ⟨List.length_take_le 20 _, rfl⟩

/-- C9: after every successful `get_traffic_usage` call, the stored baseline
equals the absolute cumulative counters read during that call (never the
delta). -/
theorem C9_baseline_absolute (b : TrafficBaseline) (cs cr : ℕ) :
    ∃ r : TrafficReading,
      get_traffic_usage b (.ok (cs, cr)) = .ok (r, { sent := cs, recv := cr }) :=
  ⟨_, rfl⟩

/-- C6: if every probe URL fails with a connection error or timeout,
`check_internet_availability` returns exactly
`{available := false, status_code := 0, ping := none, test_url := none}`. -/
theorem C6_all_fail_result (st : Option ℕ) (now : ℕ) (o1 o2 o3 : UrlOutcome)
    (h1 : o1 = .connError ∨ o1 = .timeout)
    (h2 : o2 = .connError ∨ o2 = .timeout)
    (h3 : o3 = .connError ∨ o3 = .timeout) :
    (check_internet_availability st now (test_urls.zip [o1, o2, o3])).1 =
      { available := false, status_code := 0, ping := none, test_url := none } := by
  rcases h1 with rfl | rfl <;> rcases h2 with rfl | rfl <;> rcases h3 with rfl | rfl <;>
    cases st <;> rfl

/-- Witness for C6 at a concrete input: all three URLs time out. -/
theorem C6_all_fail_result_witness :
    (check_internet_availability none 0
        (test_urls.zip [.timeout, .timeout, .timeout])).1 =
      { available := false, status_code := 0, ping := none, test_url := none } :=
  C6_all_fail_result none 0 _ _ _ (Or.inr rfl) (Or.inr rfl) (Or.inr rfl)

/-- C7: `check_internet_availability` returns on the first URL that produces
any HTTP response: the result has `available = (200 ≤ status < 400)`, that
status, the responding URL, and the elapsed round-trip in milliseconds
rounded to 2 decimals; the downtime state is untouched; a status ≥ 400 is
logged as a warning but the later URLs are not consulted (the result does
not depend on `rest`). -/
theorem C7_first_response (st : Option ℕ) (now : ℕ)
    (pre rest : List (String × UrlOutcome)) (url : String) (s : ℕ) (t : ℚ)
    (h : ∀ p ∈ pre, p.2.isResponse = false) :
    (check_internet_availability st now (pre ++ (url, .response s t) :: rest)).1 =
      { available := decide (200 ≤ s ∧ s < 400), status_code := s,
        ping := some (round2 (t * 1000)), test_url := some url }
    ∧ (check_internet_availability st now (pre ++ (url, .response s t) :: rest)).2.1 = st
    ∧ (400 ≤ s →
        LogEvent.warning ("HTTP Error " ++ toString s ++ " for " ++ url) ∈
          (check_internet_availability st now (pre ++ (url, .response s t) :: rest)).2.2) := by
  have hl := checkLoop_first_response pre rest url s t h
  unfold check_internet_availability
  rcases hc : checkLoop (pre ++ (url, .response s t) :: rest) with ⟨fst, logs⟩
  rw [hc] at hl
  cases fst with
  | none => simp at hl
  | some r =>
    obtain ⟨h1, h2⟩ := hl
    simp only [Option.some.injEq] at h1
    exact ⟨h1.symm ▸ rfl, rfl, fun hs => h2 hs⟩

/-- Witness for C7 at a concrete input: the first URL refuses the
connection, the second answers 503 after 0.25 s. -/
theorem C7_first_response_witness :
    (check_internet_availability (some 5) 9
        [("https://www.google.com", .connError),
         ("https://www.cloudflare.com", .response 503 (1/4)),
         ("https://1.1.1.1", .timeout)]).1 =
      { available := decide (200 ≤ 503 ∧ 503 < 400), status_code := 503,
        ping := some (round2 ((1/4 : ℚ) * 1000)), test_url := some "https://www.cloudflare.com" }
    ∧ (check_internet_availability (some 5) 9
        [("https://www.google.com", .connError),
         ("https://www.cloudflare.com", .response 503 (1/4)),
         ("https://1.1.1.1", .timeout)]).2.1 = some 5
    ∧ (400 ≤ 503 →
        LogEvent.warning ("HTTP Error " ++ toString 503 ++ " for " ++ "https://www.cloudflare.com") ∈
          (check_internet_availability (some 5) 9
            [("https://www.google.com", .connError),
             ("https://www.cloudflare.com", .response 503 (1/4)),
             ("https://1.1.1.1", .timeout)]).2.2) :=
  C7_first_response (some 5) 9 [("https://www.google.com", .connError)]
    [("https://1.1.1.1", .timeout)] "https://www.cloudflare.com" 503 (1/4)
    (by decide)

/-- Lemma: `Rat.floor` agrees with the `FloorRing` floor on `ℚ`. -/
theorem ratFloor_eq_floor (q : ℚ) : q.floor = ⌊q⌋ := rfl

/-- Rounding half-to-even fixes integers. -/
theorem roundHalfEven_intCast (z : ℤ) : roundHalfEven (z : ℚ) = z := by
  simp [roundHalfEven, ratFloor_eq_floor, Int.floor_intCast]

/-- C4: `get_traffic_usage` reports rates as
`round((current − baseline) * 8 / 1024 / 10, 2)` kbit/s over the fixed
nominal 10-second interval, and totals as `round(bytes / 1048576, 2)` MB;
in particular a delta of +102400 sent bytes yields `sent_rate_kbps = 80`. -/
theorem C4_traffic_formulas (b : TrafficBaseline) (cs cr : ℕ) :
    get_traffic_usage b (.ok (cs, cr)) =
      .ok ({ sent_total_mb := round2 ((cs : ℚ) / 1048576)
             recv_total_mb := round2 ((cr : ℚ) / 1048576)
             sent_rate_kbps := round2 ((((cs : ℤ) - (b.sent : ℤ) : ℤ) : ℚ) * 8 / 1024 / 10)
             recv_rate_kbps := round2 ((((cr : ℤ) - (b.recv : ℤ) : ℤ) : ℚ) * 8 / 1024 / 10) },
           { sent := cs, recv := cr })
    ∧ (get_traffic_usage b (.ok (b.sent + 102400, b.recv))).map
        (fun p => p.1.sent_rate_kbps) = .ok 80 := by
  constructor
  · rfl
  · have hd : ((b.sent + 102400 : ℕ) : ℤ) - (b.sent : ℤ) = 102400 := by push_cast; ring
    have h80 : round2 (80 : ℚ) = 80 := by
      have h1 : ((80 : ℚ)) * 100 = ((8000 : ℤ) : ℚ) := by norm_num
      rw [round2, h1, roundHalfEven_intCast]
      norm_num
    simp only [get_traffic_usage, Except.map, hd]
    norm_num [h80]

/-- C1 counterexample: with the downtime state null, the first URL answering
HTTP 500 makes `check_internet_availability` return `available = false`, yet
no onset timestamp is recorded and no critical event is logged — the claimed
UP→DOWN transition does not occur on this `available=false` result. -/
theorem C1_counterexample :
    (check_internet_availability none 7
        (test_urls.zip [.response 500 1, .connError, .connError])).1.available = false
    ∧ (check_internet_availability none 7
        (test_urls.zip [.response 500 1, .connError, .connError])).2.1 = none
    ∧ LogEvent.critical "INTERNET DOWN - Initial detection" ∉
        (check_internet_availability none 7
          (test_urls.zip [.response 500 1, .connError, .connError])).2.2 := by
  refine ⟨rfl, rfl, ?_⟩
  decide

/-- C1 (amended): the UP→DOWN transition occurs only when no probe URL
produced an HTTP response at all: in that case, if the onset state was null,
the onset timestamp is recorded and a critical event is logged; and in
general the onset state after a check is non-null iff it was non-null before
or the check observed total failure (no URL responded). An `available=false`
result coming from an HTTP response with status outside [200,400) records
nothing. -/
theorem C1_transition_on_total_failure (st : Option ℕ) (now : ℕ)
    (outs : List (String × UrlOutcome)) :
    ((∀ p ∈ outs, p.2.isResponse = false) → st = none →
      (check_internet_availability st now outs).2.1 = some now ∧
      LogEvent.critical "INTERNET DOWN - Initial detection" ∈
        (check_internet_availability st now outs).2.2)
    ∧ ((check_internet_availability st now outs).2.1).isSome
        = (st.isSome || ((checkLoop outs).1).isNone) := by
  constructor
  · intro h hst
    subst hst
    have hn := checkLoop_fst_none outs h
    unfold check_internet_availability
    rcases hc : checkLoop outs with ⟨fst, logs⟩
    rw [hc] at hn
    simp only at hn
    subst hn
    exact ⟨rfl, by simp⟩
  · unfold check_internet_availability
    rcases hc : checkLoop outs with ⟨fst, logs⟩
    cases fst <;> cases st <;> simp [hc]

/-- Witness for C1 (amended) at a concrete input: all three URLs time out
while the state is UP. -/
theorem C1_transition_witness :
    (check_internet_availability none 7
        (test_urls.zip [UrlOutcome.timeout, .timeout, .timeout])).2.1 = some 7
    ∧ LogEvent.critical "INTERNET DOWN - Initial detection" ∈
        (check_internet_availability none 7
          (test_urls.zip [UrlOutcome.timeout, .timeout, .timeout])).2.2 :=
  (C1_transition_on_total_failure none 7 _).1 (by decide) rfl

/-- When a check reports `available = true`, it reached the response branch
and left the downtime state unchanged. -/
theorem check_state_of_available (ld : Option ℕ) (now : ℕ)
    (outs : List (String × UrlOutcome))
    (h : (check_internet_availability ld now outs).1.available = true) :
    (check_internet_availability ld now outs).2.1 = ld := by
  unfold check_internet_availability at h ⊢
  rcases hc : checkLoop outs with ⟨fst, logs⟩
  rw [hc] at h
  cases fst with
  | some r => simp
  | none => cases ld <;> simp at h

/-- C2 counterexample: on the concrete recovery tick (monitor DOWN since
tick 5, first URL answers 200), `get_all_stats` succeeds, reports
availability, yet the `last_down` of the returned snapshot is `some 5` — the
onset recorded before recovery — not `none` (`"Never"`) as the claim states;
the onset is cleared only in the post-assembly state. -/
theorem C2_counterexample :
    exSt.last_down_time = some 5
    ∧ (get_all_stats exSt exEnvRecovery).1.map (fun s => s.availability.available)
        = Except.ok true
    ∧ (get_all_stats exSt exEnvRecovery).1.map (fun s => s.last_down)
        = Except.ok (some 5)
    ∧ (get_all_stats exSt exEnvRecovery).2.1.last_down_time = none :=
  ⟨rfl, rfl, rfl, rfl⟩

/-- C2 (amended): the UP→DOWN half of the downtime processing happens inside
the availability check before assembly, but the DOWN→UP transition runs only
after the snapshot dict is built: on the cycle where recovery is detected
(probe available, onset non-null, counter read succeeds) `get_all_stats`
returns a snapshot whose `last_down` is still the recorded onset timestamp,
while the returned state has the onset cleared and the restoration logged —
so `"Never"` appears only from the following cycle on. -/
theorem C2_recovery_reports_previous_onset (st : MonitorState) (env : Env)
    (t cs cr : ℕ)
    (hld : st.last_down_time = some t)
    (hav : (check_internet_availability st.last_down_time env.now
              (test_urls.zip env.outcomes)).1.available = true)
    (hnet : env.netCounters = Except.ok (cs, cr)) :
    ∃ s : Stats,
      (get_all_stats st env).1 = Except.ok s
      ∧ s.last_down = some t
      ∧ (get_all_stats st env).2.1.last_down_time = none
      ∧ LogEvent.info ("INTERNET RESTORED after " ++ toString (env.now - t)) ∈
          (get_all_stats st env).2.2 := by
  have hst : (check_internet_availability st.last_down_time env.now
                (test_urls.zip env.outcomes)).2.1 = some t := by
    rw [check_state_of_available _ _ _ hav, hld]
  simp only [get_all_stats, hnet, get_traffic_usage, hav, hst]
  refine ⟨_, rfl, ?_, ?_, ?_⟩ <;> simp

/-- Witness for C2 (amended) at the concrete recovery tick. -/
theorem C2_recovery_witness :
    ∃ s : Stats,
      (get_all_stats exSt exEnvRecovery).1 = Except.ok s
      ∧ s.last_down = some 5
      ∧ (get_all_stats exSt exEnvRecovery).2.1.last_down_time = none
      ∧ LogEvent.info ("INTERNET RESTORED after " ++ toString (exEnvRecovery.now - 5)) ∈
          (get_all_stats exSt exEnvRecovery).2.2 :=
  C2_recovery_reports_previous_onset exSt exEnvRecovery 5 0 0 rfl rfl rfl

/-- C3 counterexample: a failure of the cumulative byte-counter read (the
capability of the traffic sampler) is not caught anywhere — `get_all_stats`
propagates it and no snapshot is returned, refuting "never aborts due to a
sub-collector failure". -/
theorem C3_counterexample :
    (get_all_stats exSt exEnvTrafficFail).1 = Except.error "boom" := rfl

/-- C3 (amended): failures in the connectivity probe, the speed probe, the
network-info collector and the connection census are caught at their source
and degrade the corresponding snapshot fields, but the counter read in the
traffic sampler is unguarded: for every state and environment, `get_all_stats`
returns a complete snapshot iff the byte-counter read succeeds; when it
fails, that failure propagates out of `get_all_stats`. -/
theorem C3_aborts_iff_counter_read_fails (st : MonitorState) (env : Env) :
    ((∃ s, (get_all_stats st env).1 = Except.ok s) ↔
      (∃ c : ℕ × ℕ, env.netCounters = Except.ok c))
    ∧ (∀ e, env.netCounters = Except.error e →
        (get_all_stats st env).1 = Except.error e) := by
  refine ⟨⟨?_, ?_⟩, ?_⟩
  · intro ⟨s, hs⟩
    rcases hn : env.netCounters with e | c
    · rw [get_all_stats, hn] at hs
      simp only [get_traffic_usage] at hs
      exact absurd hs (by simp)
    · exact ⟨c, rfl⟩
  · intro ⟨c, hc⟩
    obtain ⟨cs, cr⟩ := c
    rw [get_all_stats, hc]
    simp only [get_traffic_usage]
    rcases (check_internet_availability st.last_down_time env.now
              (test_urls.zip env.outcomes)).1.available with _ | _ <;>
      rcases (check_internet_availability st.last_down_time env.now
                (test_urls.zip env.outcomes)).2.1 with _ | t <;>
      exact ⟨_, rfl⟩
  · intro e he
    rw [get_all_stats, he]
    simp only [get_traffic_usage]

/-- Witness for C3 (amended) at the concrete failing environment. -/
theorem C3_aborts_witness :
    ((∃ s, (get_all_stats exSt exEnvTrafficFail).1 = Except.ok s) ↔
      (∃ c : ℕ × ℕ, exEnvTrafficFail.netCounters = Except.ok c))
    ∧ (get_all_stats exSt exEnvTrafficFail).1 = Except.error "boom" :=
  ⟨(C3_aborts_iff_counter_read_fails exSt exEnvTrafficFail).1,
   (C3_aborts_iff_counter_read_fails exSt exEnvTrafficFail).2 "boom" rfl⟩

/-- C10: a stale-cache reader of `GET /api/stats` gets the freshly computed
stats back, while the module-level `cached_stats`/`cache_time` globals are
untouched by the handler on every path (the assignment binds a
function-local name), so only the background refresher ever replaces the
global cache. -/
theorem C10_stale_read_leaves_globals (g : AppGlobals) (now : ℚ) (fresh : Stats) :
    (get_stats g now fresh).2 = g
    ∧ (now - g.cache_time > CACHE_TTL →
        (get_stats g now fresh).1 = .json (some fresh))
    ∧ update_cache_step now fresh =
        { cached_stats := some fresh, cache_time := now } := by
  refine ⟨?_, fun h => ?_, rfl⟩
  · unfold get_stats
    split <;> rfl
  · simp [get_stats, if_pos h]

/-- Witness for C10 at a concrete input: cache stamped at time 0, request at
time 6 (staleness 6 > 5). -/
theorem C10_stale_read_witness :
    (get_stats { cached_stats := none, cache_time := 0 } 6 exStats).2 =
      { cached_stats := none, cache_time := 0 }
    ∧ (get_stats { cached_stats := none, cache_time := 0 } 6 exStats).1 =
        .json (some exStats) :=
  ⟨(C10_stale_read_leaves_globals _ 6 exStats).1,
   (C10_stale_read_leaves_globals _ 6 exStats).2.1 (by norm_num [CACHE_TTL])⟩
